import Mathlib

/-!
Shallow embedding of the logging facility in
`src/werewolf_agent/common/log/logger.py` (class `LoggerManager`),
together with theorems checking the natural-language specification
of the repository against it.

Modelling conventions:
* Python `logging` severity constants are the usual naturals
  (DEBUG = 10, INFO = 20, WARNING = 30, ERROR = 40, CRITICAL = 50).
* Optional string arguments are `Option String`; Python's `if x:`
  truthiness test on such an argument (false for both `None` and `""`)
  is the function `truthy`.
* The filesystem is an explicit oracle: `files` maps a path to the
  parsed INI resource when `Path(p).exists()` holds, and `mkdirOk p`
  says whether `Path(p).parent.mkdir(parents=True, exist_ok=True)`
  succeeds.
* `FileNotFoundError` raised by `_load_config` is the spec's
  ConfigurationNotFound; the `OSError` from `mkdir` is the spec's
  DirectoryCreationError; `ValueError` from `section.getint` is
  `valueError`.
* Closing a handler during `shutdown` may fail; the close oracle
  `env : Handler → Bool` tells whether `handler.close()` succeeds.
-/

namespace WolfLog

/-- Python `str.upper()` (ASCII case mapping, which covers every level
name the source compares against). -/
def pyUpper (s : String) : String := ⟨s.data.map Char.toUpper⟩

/-- Source `LoggerManager._get_log_level`: the `level_map` dictionary lookup on
`level_str.upper()` with default `logging.INFO`. -/
def get_log_level (level_str : String) : Nat :=
  let u := pyUpper level_str
  if u = "DEBUG" then 10
  else if u = "INFO" then 20
  else if u = "WARNING" then 30
  else if u = "ERROR" then 40
  else if u = "CRITICAL" then 50
  else 20

/-- The configuration dictionary built by `_load_config` /
`_default_config`.  The three keys `level`, `format`, `date_format` are
always present; the rotation keys are present only when the INI file
supplied them (`Option`). -/
structure Config where
  level : String
  format : String
  date_format : String
  rotation_when : Option String
  rotation_interval : Option Int
  backup_count : Option Int
deriving DecidableEq, Repr

/-- Source `LoggerManager._default_config` (the rotation keys are absent). -/
def default_config : Config :=
  { level := "INFO"
    format := "%(asctime)s [%(levelname)s] %(name)s: %(message)s"
    date_format := "%Y-%m-%d %H:%M:%S"
    rotation_when := none
    rotation_interval := none
    backup_count := none }

/-- One section of a parsed INI resource: ordered key/value pairs. -/
structure IniSection where
  entries : List (String × String)
deriving DecidableEq, Repr

/-- Model of `section.get(key)` of `configparser`: first value for `key`, if any. -/
def IniSection.get? (sec : IniSection) (key : String) : Option String :=
  (sec.entries.find? (fun p => p.1 == key)).map (fun p => p.2)

/-- A parsed INI resource: named sections. -/
structure IniFile where
  sections : List (String × IniSection)
deriving DecidableEq, Repr

/-- Model of `parser.has_section(name)` / `parser[name]` combined. -/
def IniFile.getSection (f : IniFile) (name : String) : Option IniSection :=
  (f.sections.find? (fun p => p.1 == name)).map (fun p => p.2)

/-- Errors a `setup_logger` call can raise.  `configurationNotFound`
models the `FileNotFoundError` of `_load_config`,
`directoryCreationError` the `OSError` of `Path.mkdir` in
`_add_file_handler`, and `valueError` the `ValueError` of
`section.getint`. -/
inductive SetupError where
  | configurationNotFound (path : String)
  | valueError
  | directoryCreationError (path : String)
deriving DecidableEq, Repr

/-- The external filesystem, as the two oracles the source consults. -/
structure FileSystem where
  files : String → Option IniFile
  mkdirOk : String → Bool

/-- Value of a nonempty all-digit character list. -/
def digitsVal? (cs : List Char) : Option Nat :=
  if !cs.isEmpty && cs.all Char.isDigit then
    some (cs.foldl (fun a c => 10 * a + (c.toNat - 48)) 0)
  else none

/-- Python `int(s)` on a decimal string: surrounding whitespace is
stripped, an optional sign precedes the digits; anything else fails. -/
def pyInt? (s : String) : Option Int :=
  match s.trim.toList with
  | '+' :: rest => (digitsVal? rest).map (fun n => (n : Int))
  | '-' :: rest => (digitsVal? rest).map (fun n => -(n : Int))
  | cs => (digitsVal? cs).map (fun n => (n : Int))

/-- Model of `section.get(key)` followed by `section.getint(key)` when present,
as `_load_config` does for the two integer rotation keys. -/
def getintOpt (sec : IniSection) (key : String) : Except SetupError (Option Int) :=
  match sec.get? key with
  | none => .ok none
  | some s =>
    match pyInt? s with
    | some i => .ok (some i)
    | none => .error .valueError

/-- Body of `_load_config` once the `logger` section exists: the default
dictionary updated key by key, in source order. -/
def load_section (sec : IniSection) : Except SetupError Config :=
  let config := default_config
  let config :=
    { config with
      level := (sec.get? "level").getD config.level
      format := (sec.get? "format").getD config.format
      date_format := (sec.get? "date_format").getD config.date_format }
  let config :=
    match sec.get? "rotation_when" with
    | some w => { config with rotation_when := some w }
    | none => config
  match getintOpt sec "rotation_interval" with
  | .error e => .error e
  | .ok riv =>
    let config :=
      match riv with
      | some i => { config with rotation_interval := some i }
      | none => config
    match getintOpt sec "backup_count" with
    | .error e => .error e
    | .ok bcv =>
      let config :=
        match bcv with
        | some i => { config with backup_count := some i }
        | none => config
      .ok config

/-- Source `LoggerManager._load_config`: raise `FileNotFoundError` when the
path does not exist, otherwise overlay the defaults with the `logger`
section (if any). -/
def load_config (fs : FileSystem) (config_file : String) : Except SetupError Config :=
  match fs.files config_file with
  | none => .error (.configurationNotFound config_file)
  | some ini =>
    match ini.getSection "logger" with
    | none => .ok default_config
    | some sec => load_section sec

/-- Python truthiness of an optional string: `None` and `""` are falsy. -/
def truthy : Option String → Bool
  | none => false
  | some s => s != ""

/-- Lines 60-68 of `setup_logger`: load the configuration when a config
file is (truthily) supplied, then overwrite `level` when a level
argument is (truthily) supplied. -/
def resolve_config (fs : FileSystem) (config_file level : Option String) :
    Except SetupError Config :=
  match (if truthy config_file then load_config fs (config_file.getD "")
         else .ok default_config) with
  | .error e => .error e
  | .ok config =>
    .ok (if truthy level then { config with level := level.getD "" } else config)

/-- A formatter: `logging.Formatter(fmt=..., datefmt=...)`. -/
structure Formatter where
  fmt : String
  datefmt : String
deriving DecidableEq, Repr

/-- The two kinds of handler the source constructs. -/
inductive HandlerKind where
  | console
  | timedRotatingFile (path : String) (rotationWhen : String)
      (interval : Int) (backupCount : Int)
deriving DecidableEq, Repr

/-- A `logging.Handler` as configured by the source: kind, level,
formatter. -/
structure Handler where
  kind : HandlerKind
  level : Nat
  formatter : Formatter
deriving DecidableEq, Repr

/-- A `logging.Logger` as configured by the source: explicit level,
`propagate` flag, attached handlers in order. -/
structure Logger where
  name : String
  level : Nat
  propagate : Bool
  handlers : List Handler
deriving DecidableEq, Repr

/-- Source `LoggerManager._add_file_handler`: create parent directories (an
`OSError` becomes `directoryCreationError`), then append a
`TimedRotatingFileHandler` with the config's rotation policy (defaults
`"midnight"`, `1`, `0`) at the resolved level. -/
def add_file_handler (fs : FileSystem) (logger : Logger) (log_file_path : String)
    (formatter : Formatter) (config : Config) : Except SetupError Logger :=
  if fs.mkdirOk log_file_path then
    .ok { logger with
          handlers := logger.handlers ++
            [{ kind := .timedRotatingFile log_file_path
                 (config.rotation_when.getD "midnight")
                 (config.rotation_interval.getD 1)
                 (config.backup_count.getD 0)
               level := get_log_level config.level
               formatter := formatter }] }
  else .error (.directoryCreationError log_file_path)

/-- Lines 71-92 of `setup_logger`: set the logger's level, disable
propagation, clear handlers, attach the console handler at the resolved
level, and attach the file handler when a path is (truthily) supplied. -/
def build_logger (fs : FileSystem) (name : String) (log_file_path : Option String)
    (config : Config) : Except SetupError Logger :=
  let formatter : Formatter := ⟨config.format, config.date_format⟩
  let logger : Logger :=
    { name := name, level := get_log_level config.level
      propagate := false, handlers := [] }
  let console_handler : Handler :=
    { kind := .console, level := get_log_level config.level, formatter := formatter }
  let logger := { logger with handlers := logger.handlers ++ [console_handler] }
  if truthy log_file_path then
    add_file_handler fs logger (log_file_path.getD "") formatter config
  else .ok logger

/-- The state of a `LoggerManager`: the `_loggers` dictionary (insertion
ordered) and the `_initialized` flag. -/
structure LoggerManagerState where
  loggers : List (String × Logger)
  initFlag : Bool
deriving DecidableEq, Repr

/-- A freshly constructed `LoggerManager`. -/
def initState : LoggerManagerState := ⟨[], false⟩

/-- Model of `name in self._loggers` / `self._loggers[name]`. -/
def lookupLogger (st : LoggerManagerState) (name : String) : Option Logger :=
  (st.loggers.find? (fun p => p.1 == name)).map (fun p => p.2)

/-- Source `LoggerManager.setup_logger`: reuse a registered logger, otherwise
resolve the configuration, build the logger and its sinks, and register
it.  Any raised error leaves the state unchanged. -/
def setup_logger (fs : FileSystem) (st : LoggerManagerState) (name : String)
    (log_file_path config_file level : Option String) :
    Except SetupError Logger × LoggerManagerState :=
  match lookupLogger st name with
  | some lg => (.ok lg, st)
  | none =>
    match resolve_config fs config_file level with
    | .error e => (.error e, st)
    | .ok config =>
      match build_logger fs name log_file_path config with
      | .error e => (.error e, st)
      | .ok logger => (.ok logger, ⟨st.loggers ++ [(name, logger)], true⟩)

/-- Source `LoggerManager.get_logger`: `self._loggers.get(name)`. -/
def get_logger (st : LoggerManagerState) (name : String) : Option Logger :=
  lookupLogger st name

/-- Close the handlers of one logger in order.  On the first handler
whose `close()` fails the loop aborts: the result carries the failing
handler and the handlers still attached (the failing one was not
removed).  Otherwise all handlers are closed and removed. -/
def closeHandlers (env : Handler → Bool) :
    List Handler → List Handler × Option (Handler × List Handler)
  | [] => ([], none)
  | h :: rest =>
    if env h then
      let r := closeHandlers env rest
      (h :: r.1, r.2)
    else ([], some (h, h :: rest))

/-- The loop of `LoggerManager.shutdown` over the registered loggers.
On success, the list of closed handlers; on a failing `close()`, the
failing handler and the dictionary's entries as the aborted loop leaves
them (earlier loggers emptied, the current one keeping its unclosed
handlers, later ones untouched). -/
def shutdownGo (env : Handler → Bool) :
    List (String × Logger) →
    Except (Handler × List (String × Logger)) (List Handler)
  | [] => .ok []
  | (nm, lg) :: rest =>
    match closeHandlers env lg.handlers with
    | (closed, none) =>
      match shutdownGo env rest with
      | .ok more => .ok (closed ++ more)
      | .error (h, restFail) =>
        .error (h, (nm, { lg with handlers := [] }) :: restFail)
    | (_, some (h, remaining)) =>
      .error (h, (nm, { lg with handlers := remaining }) :: rest)

/-- Source `LoggerManager.shutdown`: close and remove every handler of every
registered logger, then clear the dictionary and reset the flag.  There
is no exception handling in the source: a failing `close()` propagates,
and neither `self._loggers.clear()` nor the flag reset is reached. -/
def shutdown (env : Handler → Bool) (st : LoggerManagerState) :
    Except (Handler × LoggerManagerState) (List Handler × LoggerManagerState) :=
  match shutdownGo env st.loggers with
  | .ok closed => .ok (closed, ⟨[], false⟩)
  | .error (h, ls) => .error (h, ⟨ls, st.initFlag⟩)

/-- Every handler attached to any registered logger, in order. -/
def allAttachedHandlers (st : LoggerManagerState) : List Handler :=
  st.loggers.foldr (fun p acc => p.2.handlers ++ acc) []

/-- Record emission of Python `logging`: a record at severity `levelno`
reaches the logger's handlers only when `levelno` passes the logger's
own level (`isEnabledFor`), and is then delivered to exactly the
attached handlers whose level it passes (`callHandlers`). -/
def deliveredSinks (lg : Logger) (levelno : Nat) : List Handler :=
  if lg.level ≤ levelno then
    lg.handlers.filter (fun h => decide (h.level ≤ levelno))
  else []

/-- Python `callHandlers` walks to the parent logger iff `propagate` is set. -/
def emitsToParent (lg : Logger) : Bool := lg.propagate

/-- The shape every logger built by `setup_logger` has: propagation off
and every attached handler at the logger's own level. -/
def goodLogger (lg : Logger) : Bool :=
  !lg.propagate && lg.handlers.all (fun h => h.level == lg.level)

/-- A setup result that succeeded with the logger and every attached
sink at level INFO. -/
def levelsAllINFO : Except SetupError Logger → Bool
  | .ok lg => lg.level == 20 && lg.handlers.all (fun h => h.level == 20)
  | .error _ => false

/-- Modelled from the spec (§4.1 and §6): the resolved configuration is
the defaults, overlaid by the recognized keys of the resource's `logger`
section when a configuration file is supplied, overlaid by the level
override when supplied.  Unrecognized keys are ignored (only the six
recognized keys are consulted); a missing `logger` section yields pure
defaults. -/
def spec_merge (base : Config) (sec : IniSection) : Except SetupError Config :=
  match getintOpt sec "rotation_interval" with
  | .error e => .error e
  | .ok riv =>
    match getintOpt sec "backup_count" with
    | .error e => .error e
    | .ok bcv =>
      .ok { level := (sec.get? "level").getD base.level
            format := (sec.get? "format").getD base.format
            date_format := (sec.get? "date_format").getD base.date_format
            rotation_when :=
              match sec.get? "rotation_when" with
              | some w => some w
              | none => base.rotation_when
            rotation_interval :=
              match riv with
              | some i => some i
              | none => base.rotation_interval
            backup_count :=
              match bcv with
              | some i => some i
              | none => base.backup_count }

/-- Modelled from the spec: reading the configuration resource — a
missing resource is ConfigurationNotFound, a missing `logger` section
yields pure defaults, otherwise the section overlays the defaults. -/
def spec_load (fs : FileSystem) (path : String) : Except SetupError Config :=
  match fs.files path with
  | none => .error (.configurationNotFound path)
  | some ini =>
    match ini.getSection "logger" with
    | none => .ok default_config
    | some sec => spec_merge default_config sec

/-- Modelled from the spec: full resolution — defaults, overlaid by the
file's `logger` section when a configuration file is supplied, overlaid
by the level override when supplied (the override takes precedence). -/
def spec_resolve (fs : FileSystem) (config_file level : Option String) :
    Except SetupError Config :=
  match (if truthy config_file then spec_load fs (config_file.getD "")
         else .ok default_config) with
  | .error e => .error e
  | .ok config =>
    .ok (if truthy level then { config with level := level.getD "" } else config)

/- Concrete objects used by witnesses and counterexamples. -/

/-- An empty filesystem in which every directory creation succeeds. -/
def fs0 : FileSystem := ⟨fun _ => none, fun _ => true⟩

/-- An empty filesystem in which no directory creation succeeds. -/
def fsNoDir : FileSystem := ⟨fun _ => none, fun _ => false⟩

/-- An INI resource whose `logger` section sets `level = DEBUG`. -/
def iniDebug : IniFile := ⟨[("logger", ⟨[("level", "DEBUG")]⟩)]⟩

/-- A filesystem holding `iniDebug` at path `app.ini`. -/
def fsDebug : FileSystem :=
  ⟨fun p => if p = "app.ini" then some iniDebug else none, fun _ => true⟩

/-- The console handler of a default-configured logger. -/
def wh : Handler :=
  ⟨.console, 20, ⟨default_config.format, default_config.date_format⟩⟩

/-- The logger `setup_logger` builds for name `"x"` with no optional
arguments. -/
def wlg : Logger := ⟨"x", 20, false, [wh]⟩

/-- A one-entry registry holding `wlg` under `"x"`. -/
def st1 : LoggerManagerState := ⟨[("x", wlg)], true⟩

/-- A close oracle under which every `close()` succeeds. -/
def envOk : Handler → Bool := fun _ => true

/-- A close oracle under which every `close()` raises. -/
def envFail : Handler → Bool := fun _ => false

/-- Claim C1: if an entry for `n` already exists in the registry, a
second `setup` call for `n` with any (possibly different) file path,
config path, or level arguments returns the same logger instance and
leaves the registry — hence that entry's configuration and sinks —
unchanged. -/
theorem setup_idempotent_reuse (fs : FileSystem) (st : LoggerManagerState)
    (n : String) (a b c : Option String) (lg : Logger)
    (h : lookupLogger st n = some lg) :
    setup_logger fs st n a b c = (.ok lg, st) := by
  simp [setup_logger, h]

/-- Claim C1 witness: re-calling `setup` for the registered name `"x"`
with different file, config, and level arguments returns the cached
logger and the unchanged registry. -/
theorem setup_idempotent_reuse_witness :
    lookupLogger st1 "x" = some wlg ∧
    setup_logger fs0 st1 "x" (some "other.log") (some "c.ini") (some "ERROR") =
      (.ok wlg, st1) :=
  ⟨by decide,
   setup_idempotent_reuse fs0 st1 "x" (some "other.log") (some "c.ini")
     (some "ERROR") wlg (by decide)⟩

/-- Claim C4: a first `setup` call for `n` with a (truthily supplied)
configuration path that does not resolve fails with
ConfigurationNotFound and leaves the registry unchanged, so `get n`
stays absent. -/
theorem setup_missing_config_fails (fs : FileSystem) (st : LoggerManagerState)
    (n : String) (lfp : Option String) (p : String) (lvl : Option String)
    (hfresh : lookupLogger st n = none) (hp : p ≠ "")
    (hmiss : fs.files p = none) :
    setup_logger fs st n lfp (some p) lvl =
      (.error (.configurationNotFound p), st) ∧
    get_logger st n = none := by
  have ht : truthy (some p) = true := by simp [truthy, hp]
  refine ⟨?_, ?_⟩
  · simp [setup_logger, hfresh, resolve_config, ht, load_config, hmiss]
  · simpa [get_logger] using hfresh

/-- Claim C4 witness: on an empty registry, `setup "z"` with the
nonexistent configuration path fails with ConfigurationNotFound and
registers nothing. -/
theorem setup_missing_config_fails_witness :
    lookupLogger initState "z" = none ∧
    setup_logger fs0 initState "z" none (some "/does/not/exist") none =
      (.error (.configurationNotFound "/does/not/exist"), initState) ∧
    get_logger initState "z" = none :=
  ⟨by decide,
   (setup_missing_config_fails fs0 initState "z" none "/does/not/exist" none
       (by decide) (by decide) rfl).1,
   (setup_missing_config_fails fs0 initState "z" none "/does/not/exist" none
       (by decide) (by decide) rfl).2⟩

/-- Claim C9: a first `setup` call for `n` with a (truthily supplied)
file path whose parent directory cannot be created fails with
DirectoryCreationError and leaves the registry unchanged — no partial
entry for `n` is registered. -/
theorem setup_dir_create_fails (fs : FileSystem) (st : LoggerManagerState)
    (n : String) (p : String) (cfg lvl : Option String) (c : Config)
    (hfresh : lookupLogger st n = none) (hp : p ≠ "")
    (hres : resolve_config fs cfg lvl = .ok c)
    (hmk : fs.mkdirOk p = false) :
    setup_logger fs st n (some p) cfg lvl =
      (.error (.directoryCreationError p), st) ∧
    get_logger st n = none := by
  have ht : truthy (some p) = true := by simp [truthy, hp]
  refine ⟨?_, ?_⟩
  · simp [setup_logger, hfresh, hres, build_logger, ht, add_file_handler, hmk]
  · simpa [get_logger] using hfresh

/-- Claim C9 witness: on an empty registry over a filesystem where no
directory can be created, `setup "w"` with a file path fails with
DirectoryCreationError and registers nothing. -/
theorem setup_dir_create_fails_witness :
    lookupLogger initState "w" = none ∧
    resolve_config fsNoDir none none = .ok default_config ∧
    setup_logger fsNoDir initState "w" (some "logs/app.log") none none =
      (.error (.directoryCreationError "logs/app.log"), initState) ∧
    get_logger initState "w" = none :=
  ⟨by decide, rfl,
   (setup_dir_create_fails fsNoDir initState "w" "logs/app.log" none none
       default_config (by decide) (by decide) rfl rfl).1,
   (setup_dir_create_fails fsNoDir initState "w" "logs/app.log" none none
       default_config (by decide) (by decide) rfl rfl).2⟩

/-- Claim C8: a first `setup` call with only a (non-empty) name never
fails and registers a logger at level INFO with exactly one sink — a
console sink with the default message and time formats — and no file
sink. -/
theorem setup_defaults_console_info (fs : FileSystem)
    (st : LoggerManagerState) (n : String) (hn : n ≠ "")
    (hfresh : lookupLogger st n = none) :
    setup_logger fs st n none none none =
      (.ok ⟨n, 20, false,
         [⟨.console, 20, ⟨default_config.format, default_config.date_format⟩⟩]⟩,
       ⟨st.loggers ++
          [(n, ⟨n, 20, false,
            [⟨.console, 20,
              ⟨default_config.format, default_config.date_format⟩⟩]⟩)],
        true⟩) := by
  have h20 : get_log_level default_config.level = 20 := by decide
  simp [setup_logger, hfresh, resolve_config, truthy, build_logger, h20]

/-- Claim C8 witness: `setup "x"` on an empty registry yields the
INFO-level console-only logger with the default formats. -/
theorem setup_defaults_console_info_witness :
    "x" ≠ "" ∧ lookupLogger initState "x" = none ∧
    setup_logger fs0 initState "x" none none none =
      (.ok wlg, ⟨[("x", wlg)], true⟩) :=
  ⟨by decide, by decide,
   setup_defaults_console_info fs0 initState "x" (by decide) (by decide)⟩

/-- Claim C10: an empty-string level override is treated as absent, not
as an unrecognized level: `setup` with override `""` behaves exactly as
`setup` with no override, and with a configuration file specifying
DEBUG the resolved level is DEBUG (10), not the INFO fallback. -/
theorem empty_level_override_absent :
    (∀ (fs : FileSystem) (st : LoggerManagerState) (n : String)
       (lfp cfg : Option String),
       setup_logger fs st n lfp cfg (some "") =
         setup_logger fs st n lfp cfg none) ∧
    (setup_logger fsDebug initState "m" none (some "app.ini") (some "")).1 =
      .ok ⟨"m", 10, false,
        [⟨.console, 10, ⟨default_config.format, default_config.date_format⟩⟩]⟩ := by
  constructor
  · intro fs st n lfp cfg
    rfl
  · rfl

/-- Claim C3 counterexample: the level string `"debug"` is not one of
the five uppercase level names, yet `setup` with override `"debug"`
resolves the logger and its sink to DEBUG (10), not INFO — the source
uppercases the string before the lookup. -/
theorem unknown_level_case_cex :
    "debug" ∉ (["DEBUG", "INFO", "WARNING", "ERROR", "CRITICAL"] : List String) ∧
    (setup_logger fs0 initState "x" none none (some "debug")).1 =
      .ok ⟨"x", 10, false,
        [⟨.console, 10, ⟨default_config.format, default_config.date_format⟩⟩]⟩ ∧
    levelsAllINFO (setup_logger fs0 initState "x" none none (some "debug")).1 =
      false :=
  ⟨by decide, rfl, rfl⟩

/-- Claim C3 (amended): for every resolved level string whose
*uppercased* form is not one of DEBUG, INFO, WARNING, ERROR, CRITICAL —
whether it came from the level override or from the configuration
resource — `setup` does not fail and the logger and every attached sink
resolve to level INFO. -/
theorem unknown_level_fallback_upper (fs : FileSystem)
    (st : LoggerManagerState) (n : String) (lfp cfg lvl : Option String)
    (c : Config) (hfresh : lookupLogger st n = none)
    (hres : resolve_config fs cfg lvl = .ok c)
    (hbad : pyUpper c.level ∉
      (["DEBUG", "INFO", "WARNING", "ERROR", "CRITICAL"] : List String))
    (hmk : ∀ p, lfp = some p → fs.mkdirOk p = true) :
    levelsAllINFO (setup_logger fs st n lfp cfg lvl).1 = true := by
  simp only [List.mem_cons, List.mem_singleton, not_or] at hbad
  obtain ⟨h1, h2, h3, h4, h5⟩ := hbad
  have h20 : get_log_level c.level = 20 := by
    simp [get_log_level, h1, h2, h3, h4, h5]
  cases lfp with
  | none =>
    simp [setup_logger, hfresh, hres, build_logger, truthy, levelsAllINFO, h20]
  | some p =>
    by_cases hp : p = ""
    · subst hp
      simp [setup_logger, hfresh, hres, build_logger, truthy, levelsAllINFO, h20]
    · have ht : truthy (some p) = true := by simp [truthy, hp]
      simp [setup_logger, hfresh, hres, build_logger, ht, add_file_handler,
        hmk p rfl, levelsAllINFO, h20]

/-- Claim C3 (amended) witness: the override `"nope"` (uppercased:
`"NOPE"`, not a level name) yields a successful setup whose logger and
sinks — console and file — are all at INFO. -/
theorem unknown_level_fallback_upper_witness :
    lookupLogger initState "y" = none ∧
    resolve_config fs0 none (some "nope") =
      .ok { default_config with level := "nope" } ∧
    pyUpper ({ default_config with level := "nope" } : Config).level ∉
      (["DEBUG", "INFO", "WARNING", "ERROR", "CRITICAL"] : List String) ∧
    levelsAllINFO
      (setup_logger fs0 initState "y" (some "a/b.log") none (some "nope")).1 =
      true :=
  ⟨by decide, rfl, by decide,
   unknown_level_fallback_upper fs0 initState "y" (some "a/b.log") none
     (some "nope") { default_config with level := "nope" } (by decide) rfl
     (by decide) (fun p _ => rfl)⟩

/-- Every logger `build_logger` returns has propagation off and all of
its handlers at the logger's own level. -/
theorem build_logger_good (fs : FileSystem) (n : String) (lfp : Option String)
    (config : Config) (lg : Logger)
    (h : build_logger fs n lfp config = .ok lg) : goodLogger lg = true := by
  unfold build_logger at h
  cases ht : truthy lfp with
  | false =>
    simp [ht] at h
    subst h
    simp [goodLogger]
  | true =>
    simp [ht, add_file_handler] at h
    cases hm : fs.mkdirOk (lfp.getD "") with
    | false => simp [hm] at h
    | true =>
      simp [hm] at h
      subst h
      simp [goodLogger]

/-- A good logger delivers a record to exactly the handlers whose level
it passes: below the logger's level nothing passes any handler either. -/
theorem goodLogger_delivery (lg : Logger) (hg : goodLogger lg = true)
    (R : Nat) :
    deliveredSinks lg R = lg.handlers.filter (fun h => decide (h.level ≤ R)) := by
  unfold goodLogger at hg
  simp only [Bool.and_eq_true, Bool.not_eq_true', List.all_eq_true] at hg
  obtain ⟨hprop, hlev⟩ := hg
  unfold deliveredSinks
  by_cases hR : lg.level ≤ R
  · simp [hR]
  · simp only [hR, if_false]
    symm
    rw [List.filter_eq_nil_iff]
    intro h hmem
    have := hlev h hmem
    simp only [beq_iff_eq] at this
    simp [this, hR]

/-- Claim C2: every logger `setup` returns (cached or fresh, over a
registry whose entries were all built by `setup`) delivers a record at
severity `R` to exactly those attached sinks whose configured level `L`
satisfies `R ≥ L`, and propagates nothing to any parent logging scope. -/
theorem setup_delivery_exact (fs : FileSystem) (st : LoggerManagerState)
    (n : String) (a b c : Option String) (lg : Logger)
    (st2 : LoggerManagerState)
    (hg : st.loggers.all (fun p => goodLogger p.2) = true)
    (hrun : setup_logger fs st n a b c = (.ok lg, st2)) :
    emitsToParent lg = false ∧
    (∀ R : Nat,
      deliveredSinks lg R = lg.handlers.filter (fun h => decide (h.level ≤ R))) := by
  have hgood : goodLogger lg = true := by
    unfold setup_logger at hrun
    cases hfind : lookupLogger st n with
    | some lg0 =>
      rw [hfind] at hrun
      simp at hrun
      obtain ⟨hlg, -⟩ := hrun
      subst hlg
      unfold lookupLogger at hfind
      cases hf : st.loggers.find? (fun p => p.1 == n) with
      | none => rw [hf] at hfind; simp at hfind
      | some pr =>
        rw [hf] at hfind
        simp at hfind
        have hmem := List.mem_of_find?_eq_some hf
        rw [List.all_eq_true] at hg
        rw [← hfind]
        exact hg pr hmem
    | none =>
      rw [hfind] at hrun
      cases hres : resolve_config fs b c with
      | error e => rw [hres] at hrun; simp at hrun
      | ok config =>
        rw [hres] at hrun
        simp only [] at hrun
        cases hb : build_logger fs n a config with
        | error e =>
          rw [hb] at hrun
          simp at hrun
        | ok logger =>
          rw [hb] at hrun
          simp at hrun
          obtain ⟨hlg, -⟩ := hrun
          rw [← hlg]
          exact build_logger_good fs n a config logger hb
  have hprop : lg.propagate = false := by
    unfold goodLogger at hgood
    simp only [Bool.and_eq_true, Bool.not_eq_true'] at hgood
    exact hgood.1
  exact ⟨hprop, fun R => goodLogger_delivery lg hgood R⟩

/-- Claim C2 witness: the default logger for `"x"` propagates nothing,
and at severity 35 (between its console sink's INFO and CRITICAL) the
delivered sinks are exactly the ones whose level 35 passes. -/
theorem setup_delivery_exact_witness :
    (initState.loggers.all (fun p => goodLogger p.2)) = true ∧
    setup_logger fs0 initState "x" none none none =
      (.ok wlg, ⟨[("x", wlg)], true⟩) ∧
    emitsToParent wlg = false ∧
    deliveredSinks wlg 35 = wlg.handlers.filter (fun h => decide (h.level ≤ 35)) :=
  ⟨by decide, rfl,
   (setup_delivery_exact fs0 initState "x" none none none wlg
       ⟨[("x", wlg)], true⟩ (by decide) rfl).1,
   (setup_delivery_exact fs0 initState "x" none none none wlg
       ⟨[("x", wlg)], true⟩ (by decide) rfl).2 35⟩

/-- When every `close()` succeeds, closing a logger's handlers closes
all of them and reports no failure. -/
theorem closeHandlers_all_ok (env : Handler → Bool)
    (henv : ∀ h, env h = true) (hs : List Handler) :
    closeHandlers env hs = (hs, none) := by
  induction hs with
  | nil => rfl
  | cons h rest ih => simp [closeHandlers, henv h, ih]

/-- Handlers attached to a list of registry entries, in order. -/
def attachedOf (l : List (String × Logger)) : List Handler :=
  l.foldr (fun p acc => p.2.handlers ++ acc) []

/-- When every `close()` succeeds, the shutdown loop closes exactly the
attached handlers of every entry. -/
theorem shutdownGo_all_ok (env : Handler → Bool)
    (henv : ∀ h, env h = true) (l : List (String × Logger)) :
    shutdownGo env l = .ok (attachedOf l) := by
  induction l with
  | nil => rfl
  | cons p rest ih =>
    obtain ⟨nm, lg⟩ := p
    simp [shutdownGo, closeHandlers_all_ok env henv lg.handlers, ih, attachedOf]

/-- Claim C5: when every close succeeds, `shutdown` closes exactly the
previously attached sinks and resets the registry to its pristine state
(`initState`), so `get n` is absent for every `n` and a subsequent
`setup` runs the full construction path; `shutdown` on the empty
registry is a no-op that does not fail. -/
theorem shutdown_clears_state (env : Handler → Bool)
    (st : LoggerManagerState) (henv : ∀ h, env h = true) :
    shutdown env st = .ok (allAttachedHandlers st, initState) ∧
    (∀ n, get_logger initState n = none) ∧
    shutdown env initState = .ok ([], initState) := by
  refine ⟨?_, fun n => rfl, rfl⟩
  unfold shutdown allAttachedHandlers
  rw [shutdownGo_all_ok env henv st.loggers]
  rfl

/-- Claim C5 witness: shutting down the one-entry registry closes its
console sink and yields the pristine state; `get "x"` is then absent and
shutting down the empty registry is a no-op. -/
theorem shutdown_clears_state_witness :
    shutdown envOk st1 = .ok ([wh], initState) ∧
    get_logger initState "x" = none ∧
    shutdown envOk initState = .ok ([], initState) :=
  ⟨(shutdown_clears_state envOk st1 (fun _ => rfl)).1,
   (shutdown_clears_state envOk st1 (fun _ => rfl)).2.1 "x",
   (shutdown_clears_state envOk st1 (fun _ => rfl)).2.2⟩

/-- If closing a logger's handlers reports a failure, the failing
handler's `close()` indeed fails and it is still among the handlers left
attached. -/
theorem closeHandlers_fail (env : Handler → Bool) :
    ∀ (hs closed : List Handler) (h : Handler) (rem : List Handler),
    closeHandlers env hs = (closed, some (h, rem)) →
    env h = false ∧ h ∈ rem := by
  intro hs
  induction hs with
  | nil => intro closed h rem hc; simp [closeHandlers] at hc
  | cons hd tl ih =>
    intro closed h rem hc
    unfold closeHandlers at hc
    cases henv : env hd with
    | true =>
      rw [henv] at hc
      simp only [if_true] at hc
      have h2 : (closeHandlers env tl).2 = some (h, rem) := congrArg Prod.snd hc
      have h3 : closeHandlers env tl = ((closeHandlers env tl).1, some (h, rem)) := by
        rw [← h2]
      exact ih (closeHandlers env tl).1 h rem h3
    | false =>
      rw [henv] at hc
      simp only [Bool.false_eq_true, if_false] at hc
      have h2 : some (hd, hd :: tl) = some (h, rem) := congrArg Prod.snd hc
      injection h2 with h3
      have hh : hd = h := congrArg Prod.fst h3
      have hr : hd :: tl = rem := congrArg Prod.snd h3
      refine ⟨?_, ?_⟩
      · rw [← hh]; exact henv
      · rw [← hr, ← hh]; exact List.mem_cons_self hd tl

/-- If the shutdown loop fails, the failing handler's `close()` fails,
every entry name is still registered, and the failing handler is still
attached to its entry. -/
theorem shutdownGo_fail (env : Handler → Bool) :
    ∀ (l : List (String × Logger)) (h : Handler) (ls : List (String × Logger)),
    shutdownGo env l = .error (h, ls) →
    env h = false ∧ ls.map (fun p => p.1) = l.map (fun p => p.1) ∧
      h ∈ attachedOf ls := by
  intro l
  induction l with
  | nil => intro h ls he; simp [shutdownGo] at he
  | cons p rest ih =>
    intro h ls he
    obtain ⟨nm, lg⟩ := p
    unfold shutdownGo at he
    cases hch : closeHandlers env lg.handlers with
    | mk closed fl =>
      rw [hch] at he
      cases fl with
      | none =>
        cases hgo : shutdownGo env rest with
        | ok more => rw [hgo] at he; simp at he
        | error pr =>
          obtain ⟨h2, rest2⟩ := pr
          rw [hgo] at he
          simp only [Except.error.injEq, Prod.mk.injEq] at he
          obtain ⟨hh, hl⟩ := he
          obtain ⟨henv2, hmap2, hmem2⟩ := ih h2 rest2 hgo
          rw [← hh, ← hl]
          refine ⟨henv2, ?_, ?_⟩
          · simp [hmap2]
          · simp only [attachedOf, List.foldr_cons, List.append_nil]
            exact hmem2
      | some pr =>
        obtain ⟨h2, remaining⟩ := pr
        simp only [Except.error.injEq, Prod.mk.injEq] at he
        obtain ⟨hh, hl⟩ := he
        obtain ⟨henv2, hmem2⟩ :=
          closeHandlers_fail env lg.handlers closed h2 remaining hch
        rw [← hh, ← hl]
        refine ⟨henv2, ?_, ?_⟩
        · simp
        · simp only [attachedOf, List.foldr_cons]
          exact List.mem_append_left _ hmem2

/-- Claim C6 counterexample: with a close oracle under which every
`close()` raises, `shutdown` on the one-entry registry raises (the
source has no exception handling around `handler.close()`), and the
entry — its sink still attached — remains registered. -/
theorem shutdown_close_failure_cex :
    shutdown envFail st1 = .error (wh, st1) ∧
    get_logger st1 "x" = some wlg :=
  ⟨rfl, by decide⟩

/-- Claim C6 (amended): `shutdown` propagates a failure to close a sink.
When closing some handler fails, that handler's `close()` indeed failed,
the remaining sinks are not closed (the failing sink is still attached),
and no entry is removed from the registry — every previously registered
name is still present and the `_initialized` flag is untouched. -/
theorem shutdown_failure_propagates (env : Handler → Bool)
    (st : LoggerManagerState) (h : Handler) (st2 : LoggerManagerState)
    (hfail : shutdown env st = .error (h, st2)) :
    env h = false ∧
    st2.loggers.map (fun p => p.1) = st.loggers.map (fun p => p.1) ∧
    st2.initFlag = st.initFlag ∧
    h ∈ allAttachedHandlers st2 := by
  unfold shutdown at hfail
  cases hgo : shutdownGo env st.loggers with
  | ok closed => rw [hgo] at hfail; simp at hfail
  | error pr =>
    obtain ⟨h2, ls⟩ := pr
    rw [hgo] at hfail
    simp only [Except.error.injEq, Prod.mk.injEq] at hfail
    obtain ⟨hh, hst⟩ := hfail
    obtain ⟨henv2, hmap2, hmem2⟩ := shutdownGo_fail env st.loggers h2 ls hgo
    rw [← hh, ← hst]
    exact ⟨henv2, hmap2, rfl, hmem2⟩

/-- Claim C6 (amended) witness: applying the failure theorem to the
concrete failing shutdown of the one-entry registry. -/
theorem shutdown_failure_propagates_witness :
    envFail wh = false ∧
    st1.loggers.map (fun p => p.1) = st1.loggers.map (fun p => p.1) ∧
    st1.initFlag = st1.initFlag ∧
    wh ∈ allAttachedHandlers st1 :=
  shutdown_failure_propagates envFail st1 wh st1 rfl

/-- The sequential dictionary updates of `_load_config` compute the
one-shot spec-side merge of the defaults with the section. -/
theorem load_section_eq_spec_merge (sec : IniSection) :
    load_section sec = spec_merge default_config sec := by
  unfold load_section spec_merge
  cases h1 : getintOpt sec "rotation_interval" with
  | error e => rfl
  | ok riv =>
    cases h2 : getintOpt sec "backup_count" with
    | error e => cases riv <;> rfl
    | ok bcv =>
      cases hw : sec.get? "rotation_when" <;> cases riv <;> cases bcv <;>
        simp [hw]

/-- Lemma: `_load_config` computes the spec-side load. -/
theorem load_config_eq_spec_load (fs : FileSystem) (path : String) :
    load_config fs path = spec_load fs path := by
  unfold load_config spec_load
  cases fs.files path with
  | none => rfl
  | some ini =>
    show (match ini.getSection "logger" with
          | none => (.ok default_config : Except SetupError Config)
          | some sec => load_section sec) =
         (match ini.getSection "logger" with
          | none => (.ok default_config : Except SetupError Config)
          | some sec => spec_merge default_config sec)
    cases ini.getSection "logger" with
    | none => rfl
    | some sec => exact load_section_eq_spec_merge sec

/-- Claim C7: for every first `setup` call, the resolved configuration
equals the defaults, overlaid by the configuration resource's `logger`
section (consulting only the six recognized keys, so unrecognized keys
are ignored and a missing `logger` section yields pure defaults) when a
configuration file is supplied, overlaid by the level override when
supplied — the override taking precedence over any file or default
level. -/
theorem resolve_config_matches_spec (fs : FileSystem)
    (cfg lvl : Option String) :
    resolve_config fs cfg lvl = spec_resolve fs cfg lvl := by
  unfold resolve_config spec_resolve
  rw [load_config_eq_spec_load fs (cfg.getD "")]

end WolfLog
